import Mathlib

/-!
Verification of the data-contract layer of `gfibot/backend/models.py`.

The source file declares pydantic-v1 models (`pydantic.generics.GenericModel`
exists only in pydantic v1).  The record types are embedded as Lean structures,
and the validation (`Model.parse_obj`) / encoding (`Model.dict()`) behaviour
that pydantic v1 derives from the declarations is embedded as executable
functions over a JSON-like value type.

Pydantic-v1 semantics embedded here (these come from the library the models
are declared with, and determine the behaviour of the source declarations):
  * a field typed `int` accepts a Python `int`, a `bool` (`True` → 1),
    a `float` (truncated toward zero) and a string that `int(s)` parses;
    anything else fails with "value is not a valid integer";
  * a field typed `str` accepts a string, and coerces `int`/`float`/`bool`
    values via `str(v)`; anything else fails with "str type expected";
  * `Optional[X]` fields without an explicit default are NOT required and
    default to `None`; an explicit `null` value also yields `None`;
  * unknown/extra keys of the input are ignored (default `Extra.ignore`);
  * a missing required field fails with "field required";
  * a non-dict input fails at the root with "value is not a valid dict";
  * `.dict()` emits every declared field, including those holding `None`.

Out of modelled scope (no claim exercises them): parsing ISO-8601 datetime
strings, parsing float strings with exponents/`inf`/`nan`, non-ASCII digits
in `int(s)`, and Python's repr of floats (floats are modelled as exact
rationals, used only pass-through by these schemas).
-/

/-- Model of a Python `datetime` value, abstracted to a unix timestamp.
The schemas only pass datetimes through, never compute with them. -/
structure PyDatetime where
  stamp : Int
deriving DecidableEq, Repr

/-- A JSON-like raw value, the input/output type of Validate/Encode.
`dt` is a (non-JSON) Python `datetime` object, which pydantic accepts on
input and which `.dict()` emits unchanged.  `obj` models a Python dict;
keys are assumed distinct. -/
inductive JValue where
  | null
  | bool (b : Bool)
  | int (n : Int)
  | float (q : Rat)
  | str (s : String)
  | arr (xs : List JValue)
  | obj (kvs : List (String × JValue))
  | dt (d : PyDatetime)

/-- First-occurrence lookup in an object's key-value list (dict access). -/
def lookup : List (String × JValue) → String → Option JValue
  | [], _ => none
  | (k', v) :: rest, k => if k' = k then some v else lookup rest k

/-- Validation errors: (field name, message) pairs, as in pydantic's
`ValidationError.errors()` (locations flattened to the field name). -/
abbrev VErrors := List (String × String)

/-- Truncation of a rational toward zero, Python's `int(float)`. -/
def ratTrunc (q : Rat) : Int :=
  if q < 0 then -(Int.floor (-q)) else Int.floor q

/-- Digit string (with single underscores between digits allowed, as in
Python 3's `int`) to its value: grammar `digit (underscore? digit)*`. -/
def parseDigitsU : List Char → Option Nat
  | [] => none
  | c :: rest =>
    if c.isDigit then go (c.toNat - 48) rest else none
where
  go (acc : Nat) : List Char → Option Nat
    | [] => some acc
    | '_' :: c :: rest =>
      if c.isDigit then go (acc * 10 + (c.toNat - 48)) rest else none
    | c :: rest =>
      if c.isDigit then go (acc * 10 + (c.toNat - 48)) rest else none

/-- Python `str.strip()` with no argument: drop whitespace from both ends. -/
def pyStrip (l : List Char) : List Char :=
  ((l.dropWhile Char.isWhitespace).reverse.dropWhile Char.isWhitespace).reverse

/-- Python `int(s)` on a string: surrounding whitespace stripped, optional
sign, decimal digits (underscore separators allowed). `none` = `ValueError`. -/
def pyParseInt (s : String) : Option Int :=
  match pyStrip s.data with
  | '+' :: rest => (parseDigitsU rest).map Int.ofNat
  | '-' :: rest => (parseDigitsU rest).map (fun n => -(n : Int))
  | l => (parseDigitsU l).map Int.ofNat

/-- Value of a digit string (most-significant first). -/
def digitsVal (l : List Char) : Nat :=
  l.foldl (fun acc c => acc * 10 + (c.toNat - 48)) 0

/-- Unsigned part of Python `float(s)`: `digits`, `digits.digits`,
`digits.` or `.digits` (exponent forms out of modelled scope). -/
def parseUFloat (l : List Char) : Option Rat :=
  let ip := l.takeWhile Char.isDigit
  let rest := l.dropWhile Char.isDigit
  match rest with
  | [] => if ip.isEmpty then none else some ((digitsVal ip : Nat) : Rat)
  | '.' :: fp =>
    if fp.all Char.isDigit && (!ip.isEmpty || !fp.isEmpty) then
      some (((digitsVal ip : Nat) : Rat) + ((digitsVal fp : Nat) : Rat) / (10 : Rat) ^ fp.length)
    else none
  | _ => none

/-- Python `float(s)` on a string (modelled subset, see header). -/
def pyParseFloat (s : String) : Option Rat :=
  match pyStrip s.data with
  | '+' :: rest => parseUFloat rest
  | '-' :: rest => (parseUFloat rest).map Neg.neg
  | l => parseUFloat l

/-- pydantic v1 `int_validator`: ints pass, bools/floats/numeric strings
are coerced via Python `int()`. -/
def int_validator : JValue → Except String Int
  | .int n => .ok n
  | .bool b => .ok (if b then 1 else 0)
  | .float q => .ok (ratTrunc q)
  | .str s =>
    match pyParseInt s with
    | some n => .ok n
    | none => .error "value is not a valid integer"
  | _ => .error "value is not a valid integer"

/-- pydantic v1 `float_validator`: floats pass, ints/bools/numeric strings
are coerced via Python `float()`. -/
def float_validator : JValue → Except String Rat
  | .float q => .ok q
  | .int n => .ok (n : Rat)
  | .bool b => .ok (if b then 1 else 0)
  | .str s =>
    match pyParseFloat s with
    | some q => .ok q
    | none => .error "value is not a valid float"
  | _ => .error "value is not a valid float"

/-- pydantic v1 `str_validator`: strings pass, numbers are coerced via
Python `str(v)` (a Python bool is an int, and `str(True) = "True"`;
float repr is modelled abstractly on the exact rational). -/
def str_validator : JValue → Except String String
  | .str s => .ok s
  | .bool b => .ok (if b then "True" else "False")
  | .int n => .ok (toString n)
  | .float q => .ok (toString q)
  | _ => .error "str type expected"

/-- pydantic v1 `parse_datetime`: datetime objects pass, ints/floats are
unix timestamps (ISO-string parsing is out of modelled scope, see header). -/
def datetime_validator : JValue → Except String PyDatetime
  | .dt d => .ok d
  | .int n => .ok ⟨n⟩
  | .float q => .ok ⟨ratTrunc q⟩
  | _ => .error "invalid datetime format"

/-- pydantic v1 validator for `Dict[str, Any]`: a dict passes through. -/
def dict_validator : JValue → Except String (List (String × JValue))
  | .obj kvs => .ok kvs
  | _ => .error "value is not a valid dict"

/-- Element-wise validation of a list's items (first failing item's
message reported, attributed to the field). -/
def validateElems (fv : JValue → Except String α) : List JValue → Except String (List α)
  | [] => .ok []
  | v :: vs =>
    match fv v, validateElems fv vs with
    | .ok a, .ok rest => .ok (a :: rest)
    | .error e, _ => .error e
    | .ok _, .error e => .error e

/-- pydantic v1 validator for `List[X]`. -/
def list_validator (fv : JValue → Except String α) : JValue → Except String (List α)
  | .arr xs => validateElems fv xs
  | _ => .error "value is not a valid list"

/-- A required field: missing key fails with "field required", otherwise
the field validator runs and its error is attributed to the field. -/
def reqField (kvs : List (String × JValue)) (k : String)
    (fv : JValue → Except String α) : Except VErrors α :=
  match lookup kvs k with
  | none => .error [(k, "field required")]
  | some v =>
    match fv v with
    | .ok a => .ok a
    | .error m => .error [(k, m)]

/-- An `Optional[X]` field with (implicit) default `None`: a missing key
and an explicit `null` both yield `none`. -/
def optField (kvs : List (String × JValue)) (k : String)
    (fv : JValue → Except String α) : Except VErrors (Option α) :=
  match lookup kvs k with
  | none => .ok none
  | some .null => .ok none
  | some v =>
    match fv v with
    | .ok a => .ok (some a)
    | .error m => .error [(k, m)]

/-- Error-accumulating application: pydantic validates every field and
reports all failures together, in declaration order. -/
def vApp : Except VErrors (α → β) → Except VErrors α → Except VErrors β
  | .ok f, .ok a => .ok (f a)
  | .ok _, .error e => .error e
  | .error e, .ok _ => .error e
  | .error e1, .error e2 => .error (e1 ++ e2)

/-- `class RepoBrief(BaseModel)`. -/
structure RepoBrief where
  name : String
  owner : String
  description : Option String
  language : Option String
  topics : List String
deriving DecidableEq, Repr

/-- `RepoBrief.parse_obj`. -/
def validateRepoBrief : JValue → Except VErrors RepoBrief
  | .obj kvs =>
    vApp (vApp (vApp (vApp (vApp (.ok RepoBrief.mk)
      (reqField kvs "name" str_validator))
      (reqField kvs "owner" str_validator))
      (optField kvs "description" str_validator))
      (optField kvs "language" str_validator))
      (reqField kvs "topics" (list_validator str_validator))
  | _ => .error [("__root__", "value is not a valid dict")]

/-- Encoding of an `Option String` field value in `.dict()` output. -/
def encOptStr : Option String → JValue
  | none => .null
  | some s => .str s

/-- `RepoBrief(...).dict()`: every declared field, `None` included. -/
def encodeRepoBrief (v : RepoBrief) : JValue :=
  .obj [("name", .str v.name), ("owner", .str v.owner),
        ("description", encOptStr v.description),
        ("language", encOptStr v.language),
        ("topics", .arr (v.topics.map JValue.str))]

/-- The declared fields of `RepoBrief`, in declaration order. -/
def repoBriefFields : List String :=
  ["name", "owner", "description", "language", "topics"]

/-- Restriction of a raw object to a schema's declared fields: keep
exactly the keys the schema declares (in schema order), drop the rest. -/
def restrictKeys (fields : List String) : JValue → JValue
  | .obj kvs => .obj (fields.filterMap (fun k => (lookup kvs k).map (fun v => (k, v))))
  | v => v

/-- `class GFIResponse(GenericModel, Generic[T])`: `code: int = 200; result: T`. -/
structure GFIResponse (T : Type) where
  code : Int := 200
  result : T

/-- Construction of a `GFIResponse` supplying only `result`: the declared
default for `code` applies. -/
def GFIResponse.mkDefault (result : T) : GFIResponse T :=
  { result }

/-- `GFIResponse(...).dict()`, delegating the payload to `T`'s encoder. -/
def encodeGFIResponse (encT : T → JValue) (v : GFIResponse T) : JValue :=
  .obj [("code", .int v.code), ("result", encT v.result)]

/-- `class MonthlyCount(BaseModel)`. -/
structure MonthlyCount where
  month : PyDatetime
  count : Int
deriving DecidableEq, Repr

/-- `MonthlyCount.parse_obj`. -/
def validateMonthlyCount : JValue → Except VErrors MonthlyCount
  | .obj kvs =>
    vApp (vApp (.ok MonthlyCount.mk)
      (reqField kvs "month" datetime_validator))
      (reqField kvs "count" int_validator)
  | _ => .error [("__root__", "value is not a valid dict")]

/-- `class RepoSort(Enum)`: members and their wire values. -/
inductive RepoSort
  | STARS
  | GFIS
  | ISSUE_CLOSE_TIME
  | NEWCOMER_RESOLVE_RATE
deriving DecidableEq, Repr

/-- The `value` of each `RepoSort` member, as declared in the source. -/
def RepoSort.value : RepoSort → String
  | .STARS => "popularity"
  | .GFIS => "gfis"
  | .ISSUE_CLOSE_TIME => "median_issue_resolve_time"
  | .NEWCOMER_RESOLVE_RATE => "newcomer_friendly"

/-- Validation of a string as a `RepoSort` value (`RepoSort(s)` in Python,
which pydantic's enum validation performs): lookup by declared value. -/
def validateRepoSort (s : String) : Option RepoSort :=
  if s = "popularity" then some .STARS
  else if s = "gfis" then some .GFIS
  else if s = "median_issue_resolve_time" then some .ISSUE_CLOSE_TIME
  else if s = "newcomer_friendly" then some .NEWCOMER_RESOLVE_RATE
  else none

/-- `class UserSearchedRepo(BaseModel)`. -/
structure UserSearchedRepo where
  name : String
  owner : String
  created_at : PyDatetime
  increment : Int
deriving DecidableEq, Repr

/-- `UserSearchedRepo.parse_obj`. -/
def validateUserSearchedRepo : JValue → Except VErrors UserSearchedRepo
  | .obj kvs =>
    vApp (vApp (vApp (vApp (.ok UserSearchedRepo.mk)
      (reqField kvs "name" str_validator))
      (reqField kvs "owner" str_validator))
      (reqField kvs "created_at" datetime_validator))
      (reqField kvs "increment" int_validator)
  | _ => .error [("__root__", "value is not a valid dict")]

/-- `class UpdateConfig(BaseModel)`. -/
structure UpdateConfig where
  task_id : String
  interval : Int
  begin_time : PyDatetime
deriving DecidableEq, Repr

/-- `UpdateConfig.parse_obj`. -/
def validateUpdateConfig : JValue → Except VErrors UpdateConfig
  | .obj kvs =>
    vApp (vApp (vApp (.ok UpdateConfig.mk)
      (reqField kvs "task_id" str_validator))
      (reqField kvs "interval" int_validator))
      (reqField kvs "begin_time" datetime_validator)
  | _ => .error [("__root__", "value is not a valid dict")]

/-- `class GFIBrief(BaseModel)`. -/
structure GFIBrief where
  name : String
  owner : String
  number : Int
  threshold : Rat
  probability : Rat
  last_updated : PyDatetime
  state : Option String
  title : Option String
deriving DecidableEq, Repr

/-- `GFIBrief.parse_obj`. -/
def validateGFIBrief : JValue → Except VErrors GFIBrief
  | .obj kvs =>
    vApp (vApp (vApp (vApp (vApp (vApp (vApp (vApp (.ok GFIBrief.mk)
      (reqField kvs "name" str_validator))
      (reqField kvs "owner" str_validator))
      (reqField kvs "number" int_validator))
      (reqField kvs "threshold" float_validator))
      (reqField kvs "probability" float_validator))
      (reqField kvs "last_updated" datetime_validator))
      (optField kvs "state" str_validator))
      (optField kvs "title" str_validator)
  | _ => .error [("__root__", "value is not a valid dict")]

/-- `class GitHubRepo(BaseModel)`: only `full_name` and `name` are fields;
`owner` is a `@property`, not a field. -/
structure GitHubRepo where
  full_name : String
  name : String
deriving DecidableEq, Repr

/-- Python `s.split("/")` on a character list: cut at every `'/'`. -/
def splitSlashAux : List Char → List Char → List (List Char)
  | [], acc => [acc.reverse]
  | c :: cs, acc =>
    if c = '/' then acc.reverse :: splitSlashAux cs [] else splitSlashAux cs (c :: acc)

/-- Python `s.split("/")`. -/
def pySplitSlash (s : String) : List String :=
  (splitSlashAux s.data []).map (fun cs => String.mk cs)

/-- The `owner` property: `self.full_name.split("/")[0]`. `split` always
returns a non-empty list, so index 0 never fails. -/
def GitHubRepo.owner (r : GitHubRepo) : String :=
  (pySplitSlash r.full_name).headD ""

/-- `GitHubRepo(...).dict()`: fields only — the `owner` property is not
part of the encoded output. -/
def encodeGitHubRepo (r : GitHubRepo) : JValue :=
  .obj [("full_name", .str r.full_name), ("name", .str r.name)]

/-- `GitHubRepo.parse_obj`. -/
def validateGitHubRepo : JValue → Except VErrors GitHubRepo
  | .obj kvs =>
    vApp (vApp (.ok GitHubRepo.mk)
      (reqField kvs "full_name" str_validator))
      (reqField kvs "name" str_validator)
  | _ => .error [("__root__", "value is not a valid dict")]

/-- `class GitHubAppWebhookResponse(BaseModel)`. -/
structure GitHubAppWebhookResponse where
  sender : List (String × JValue)
  action : String
  issue : Option (List (String × JValue))
  repository : Option GitHubRepo
  repositories : Option (List GitHubRepo)
  repositories_added : Option (List GitHubRepo)
  repositories_removed : Option (List GitHubRepo)

/-- `GitHubAppWebhookResponse.parse_obj`. -/
def validateGitHubAppWebhookResponse : JValue → Except VErrors GitHubAppWebhookResponse
  | .obj kvs =>
    vApp (vApp (vApp (vApp (vApp (vApp (vApp (.ok GitHubAppWebhookResponse.mk)
      (reqField kvs "sender" dict_validator))
      (reqField kvs "action" str_validator))
      (optField kvs "issue" dict_validator))
      (optField kvs "repository" validateGitHubRepoField))
      (optField kvs "repositories" (list_validator validateGitHubRepoField)))
      (optField kvs "repositories_added" (list_validator validateGitHubRepoField)))
      (optField kvs "repositories_removed" (list_validator validateGitHubRepoField))
  | _ => .error [("__root__", "value is not a valid dict")]
where
  /- A nested `GitHubRepo` as a field value (sub-model validation, the
  error collapsed to the enclosing field). -/
  validateGitHubRepoField (v : JValue) : Except String GitHubRepo :=
    match validateGitHubRepo v with
    | .ok r => .ok r
    | .error es => .error ((es.map (fun p => p.2)).headD "invalid GitHubRepo")

/-- `MonthlyCount(...).dict()`: the datetime object and the integer are
emitted unchanged. -/
def encodeMonthlyCount (v : MonthlyCount) : JValue :=
  .obj [("month", .dt v.month), ("count", .int v.count)]

/-- The declared fields of `MonthlyCount`, in declaration order. -/
def monthlyCountFields : List String :=
  ["month", "count"]

/-- Encoding of an optional field value in `.dict()` output: `None`
becomes null, a present value is encoded by the payload's encoder. -/
def encOptJ (enc : α → JValue) : Option α → JValue
  | none => .null
  | some a => enc a

/-- `GitHubAppWebhookResponse(...).dict()`: every declared field, `None`
included; nested `GitHubRepo` values as their encoded dicts. -/
def encodeGitHubAppWebhookResponse (v : GitHubAppWebhookResponse) : JValue :=
  .obj [("sender", .obj v.sender), ("action", .str v.action),
        ("issue", encOptJ (fun m => .obj m) v.issue),
        ("repository", encOptJ encodeGitHubRepo v.repository),
        ("repositories", encOptJ (fun rs => .arr (rs.map encodeGitHubRepo)) v.repositories),
        ("repositories_added",
          encOptJ (fun rs => .arr (rs.map encodeGitHubRepo)) v.repositories_added),
        ("repositories_removed",
          encOptJ (fun rs => .arr (rs.map encodeGitHubRepo)) v.repositories_removed)]

/-- The declared fields of `GitHubAppWebhookResponse`, in declaration order. -/
def webhookFields : List String :=
  ["sender", "action", "issue", "repository", "repositories",
   "repositories_added", "repositories_removed"]

/-! Helper lemmas. -/

/-- A list of strings, given as string JSON values, validates to itself. -/
theorem validateElems_str (ts : List String) :
    validateElems str_validator (ts.map JValue.str) = .ok ts := by
  induction ts with
  | nil => rfl
  | cons t ts ih => simp [validateElems, str_validator, ih]

/-- If the right argument of `vApp` fails with an error list containing `c`,
the combined result fails with an error list containing `c`. -/
theorem mem_vApp_right {α β : Type} (x : Except VErrors (α → β))
    {y : Except VErrors α} {e : VErrors} {c : String × String}
    (hy : y = .error e) (hc : c ∈ e) :
    ∃ e', vApp x y = .error e' ∧ c ∈ e' := by
  subst hy
  cases x with
  | ok f => exact ⟨e, rfl, hc⟩
  | error e1 => exact ⟨e1 ++ e, rfl, List.mem_append_right _ hc⟩

/-- If the left argument of `vApp` fails with an error list containing `c`,
the combined result fails with an error list containing `c`. -/
theorem mem_vApp_left {α β : Type} {x : Except VErrors (α → β)}
    (y : Except VErrors α) {e : VErrors} {c : String × String}
    (hx : x = .error e) (hc : c ∈ e) :
    ∃ e', vApp x y = .error e' ∧ c ∈ e' := by
  subst hx
  cases y with
  | ok a => exact ⟨e, rfl, hc⟩
  | error e2 => exact ⟨e ++ e2, rfl, List.mem_append_left _ hc⟩

/-- The first segment produced by `splitSlashAux` is the accumulator
followed by the characters before the first `'/'`. -/
theorem splitSlashAux_headD (l acc : List Char) :
    (splitSlashAux l acc).headD [] = acc.reverse ++ l.takeWhile (fun c => c != '/') := by
  induction l generalizing acc with
  | nil => simp [splitSlashAux]
  | cons c cs ih =>
    by_cases h : c = '/'
    · subst h; simp [splitSlashAux, List.takeWhile]
    · have hb : (c != '/') = true := by simp [h]
      have h2 := ih (c :: acc)
      rw [List.headD_eq_head?] at h2
      simp [splitSlashAux, h, List.takeWhile, hb, h2]

/-- `splitSlashAux` never returns an empty list. -/
theorem splitSlashAux_ne_nil (l acc : List Char) : splitSlashAux l acc ≠ [] := by
  induction l generalizing acc with
  | nil => simp [splitSlashAux]
  | cons c cs ih =>
    by_cases h : c = '/' <;> simp [splitSlashAux, h, ih]

/-- The `owner` property in closed form: the characters of `full_name`
before the first `'/'` (all of them if there is no `'/'`). -/
theorem GitHubRepo.owner_eq_takeWhile (r : GitHubRepo) :
    r.owner = String.mk (r.full_name.data.takeWhile (fun c => c != '/')) := by
  unfold GitHubRepo.owner pySplitSlash
  rcases h : splitSlashAux r.full_name.data [] with _ | ⟨x, xs⟩
  · exact absurd h (splitSlashAux_ne_nil _ _)
  · have := splitSlashAux_headD r.full_name.data []
    rw [h] at this
    simp only [List.headD_cons] at this
    simp [this]

/-- An encoded `GitHubRepo` validates back to the same record. -/
theorem validateGitHubRepo_encode (r : GitHubRepo) :
    validateGitHubRepo (encodeGitHubRepo r) = .ok r := rfl

/-- An encoded `GitHubRepo` as a nested field value validates back. -/
theorem validateGitHubRepoField_encode (r : GitHubRepo) :
    validateGitHubAppWebhookResponse.validateGitHubRepoField (encodeGitHubRepo r) = .ok r := by
  simp [validateGitHubAppWebhookResponse.validateGitHubRepoField, validateGitHubRepo_encode]

/-- A list of encoded `GitHubRepo`s validates element-wise to itself. -/
theorem validateElems_ghrepo (rs : List GitHubRepo) :
    validateElems validateGitHubAppWebhookResponse.validateGitHubRepoField
      (rs.map encodeGitHubRepo) = .ok rs := by
  induction rs with
  | nil => rfl
  | cons r rs ih => simp [validateElems, validateGitHubRepoField_encode, ih]

/-- An optional field whose raw value is the canonical encoding of an
optional payload validates to that payload, provided the payload encoder
round-trips under the field validator and never produces null. -/
theorem optField_encOptJ {α : Type} (kvs : List (String × JValue)) (k : String)
    (enc : α → JValue) (fv : JValue → Except String α) (o : Option α)
    (h : lookup kvs k = some (encOptJ enc o))
    (hok : ∀ a, fv (enc a) = .ok a)
    (hnull : ∀ a, enc a ≠ JValue.null) :
    optField kvs k fv = .ok o := by
  cases o with
  | none =>
    simp only [encOptJ] at h
    simp [optField, h]
  | some a =>
    simp only [encOptJ] at h
    have hv := hok a
    have hn := hnull a
    cases henc : enc a
    case null => exact absurd henc hn
    all_goals rw [henc] at hv h
    all_goals simp [optField, h, hv]

/-- Claim C3: the four strings "popularity", "gfis",
"median_issue_resolve_time", "newcomer_friendly" validate to the
corresponding `RepoSort` members, and every string outside this closed set
fails to validate as a `RepoSort` value. -/
theorem s2p_C3 :
    (validateRepoSort "popularity" = some .STARS
      ∧ validateRepoSort "gfis" = some .GFIS
      ∧ validateRepoSort "median_issue_resolve_time" = some .ISSUE_CLOSE_TIME
      ∧ validateRepoSort "newcomer_friendly" = some .NEWCOMER_RESOLVE_RATE)
    ∧ ∀ s : String,
        s ∉ ["popularity", "gfis", "median_issue_resolve_time", "newcomer_friendly"] →
        validateRepoSort s = none := by
  refine ⟨⟨rfl, rfl, rfl, rfl⟩, ?_⟩
  intro s hs
  simp only [List.mem_cons, List.not_mem_nil, or_false, not_or] at hs
  obtain ⟨h1, h2, h3, h4⟩ := hs
  simp [validateRepoSort, h1, h2, h3, h4]

/-- Witness for C3 at concrete inputs: "popularity" maps to `STARS`, and
the out-of-set string "stars" fails. -/
theorem s2p_C3_witness :
    validateRepoSort "popularity" = some .STARS ∧ validateRepoSort "stars" = none :=
  ⟨s2p_C3.1.1, s2p_C3.2 "stars" (by decide)⟩

/-- Claim C4: the derived `owner` of a `GitHubRepo` is the segment of
`full_name` before the first "/" (for "octocat/Hello-World" it is
"octocat"), and when `full_name` contains no "/" the accessor returns the
whole `full_name` rather than failing. -/
theorem s2p_C4 :
    (∀ r : GitHubRepo, r.owner = String.mk (r.full_name.data.takeWhile (fun c => c != '/')))
    ∧ GitHubRepo.owner ⟨"octocat/Hello-World", "Hello-World"⟩ = "octocat"
    ∧ (∀ r : GitHubRepo, '/' ∉ r.full_name.data → r.owner = r.full_name) := by
  refine ⟨GitHubRepo.owner_eq_takeWhile, rfl, ?_⟩
  intro r h
  rw [GitHubRepo.owner_eq_takeWhile]
  have : r.full_name.data.takeWhile (fun c => c != '/') = r.full_name.data := by
    rw [List.takeWhile_eq_self_iff]
    intro c hc
    simp only [bne_iff_ne, ne_eq]
    exact fun hcs => h (hcs ▸ hc)
  rw [this]

/-- Witness for C4 at a concrete slash-free input: the whole string is
returned as owner. -/
theorem s2p_C4_witness : GitHubRepo.owner ⟨"octocat", "octocat"⟩ = "octocat" :=
  s2p_C4.2.2 ⟨"octocat", "octocat"⟩ (by decide)

/-- Claim C6: a `GFIResponse` built around a payload without an explicit
code gets the declared default `code = 200`, and encodes to the wire shape
with "code" 200 and "result" the encoded payload. -/
theorem s2p_C6 : ∀ (T : Type) (v : T) (encT : T → JValue),
    (GFIResponse.mkDefault v).code = 200
    ∧ encodeGFIResponse encT (GFIResponse.mkDefault v)
      = .obj [("code", .int 200), ("result", encT v)] :=
  fun _ _ _ => ⟨rfl, rfl⟩

/-- Claim C7: no range rules — `MonthlyCount` accepts every integer count
(negatives included), `UserSearchedRepo` accepts every integer increment and
`UpdateConfig` accepts every integer interval (zero and negatives included);
each field is checked independently and the validated record holds exactly
the given values. -/
theorem s2p_C7 : ∀ (t : PyDatetime) (c : Int) (nm ow : String) (ca : PyDatetime)
    (inc : Int) (tid : String) (iv : Int) (bt : PyDatetime),
    validateMonthlyCount (.obj [("month", .dt t), ("count", .int c)]) = .ok ⟨t, c⟩
    ∧ validateUserSearchedRepo (.obj [("name", .str nm), ("owner", .str ow),
        ("created_at", .dt ca), ("increment", .int inc)]) = .ok ⟨nm, ow, ca, inc⟩
    ∧ validateUpdateConfig (.obj [("task_id", .str tid), ("interval", .int iv),
        ("begin_time", .dt bt)]) = .ok ⟨tid, iv, bt⟩ := by
  intros
  exact ⟨rfl, rfl, rfl⟩

/-- Claim C8: `GitHubRepo` validates from inputs carrying only `full_name`
and `name` (no "owner" key is required), and its encoding emits exactly the
keys "full_name" and "name" — never an "owner" key. -/
theorem s2p_C8 : ∀ (f n : String) (r : GitHubRepo),
    validateGitHubRepo (.obj [("full_name", .str f), ("name", .str n)]) = .ok ⟨f, n⟩
    ∧ encodeGitHubRepo r = .obj [("full_name", .str r.full_name), ("name", .str r.name)] := by
  intros
  exact ⟨rfl, rfl⟩

/-- Claim C10: a webhook input supplying only a `sender` map and an
`action` string validates, whatever the action string is; all five
event-specific fields default to the absent value `none`. -/
theorem s2p_C10 : ∀ (snd : List (String × JValue)) (a : String),
    validateGitHubAppWebhookResponse (.obj [("sender", .obj snd), ("action", .str a)])
      = .ok ⟨snd, a, none, none, none, none, none⟩ := by
  intros
  rfl

/-- Claim C9: for optional/nullable fields, an absent key and a key present
with an explicit null validate to equal constructed values (the `none`
marker): shown for `RepoBrief.description`/`language` and for
`GFIBrief.state`/`title`. -/
theorem s2p_C9 : ∀ (nm ow : String) (ts : List String) (num : Int) (th pr : Rat)
    (lu : PyDatetime),
    (validateRepoBrief (.obj [("name", .str nm), ("owner", .str ow),
        ("topics", .arr (ts.map JValue.str))]) = .ok ⟨nm, ow, none, none, ts⟩
      ∧ validateRepoBrief (.obj [("name", .str nm), ("owner", .str ow),
        ("description", .null), ("language", .null),
        ("topics", .arr (ts.map JValue.str))]) = .ok ⟨nm, ow, none, none, ts⟩)
    ∧ (validateGFIBrief (.obj [("name", .str nm), ("owner", .str ow), ("number", .int num),
        ("threshold", .float th), ("probability", .float pr), ("last_updated", .dt lu)])
        = .ok ⟨nm, ow, num, th, pr, lu, none, none⟩
      ∧ validateGFIBrief (.obj [("name", .str nm), ("owner", .str ow), ("number", .int num),
        ("threshold", .float th), ("probability", .float pr), ("last_updated", .dt lu),
        ("state", .null), ("title", .null)])
        = .ok ⟨nm, ow, num, th, pr, lu, none, none⟩) := by
  intros
  refine ⟨⟨?_, ?_⟩, ?_, ?_⟩ <;>
    simp [validateRepoBrief, validateGFIBrief, reqField, optField, lookup, vApp,
      str_validator, int_validator, float_validator, datetime_validator,
      list_validator, validateElems_str]

/-- Claim C2: omitting any required field of `RepoBrief` ("name", "owner"
or "topics") makes validation fail with an error naming that field as
missing; in particular an input without "owner" fails naming "owner". -/
theorem s2p_C2 : ∀ (kvs : List (String × JValue)) (k : String),
    k ∈ ["name", "owner", "topics"] → lookup kvs k = none →
    ∃ errs, validateRepoBrief (.obj kvs) = .error errs ∧ (k, "field required") ∈ errs := by
  intro kvs k hk hmiss
  simp only [List.mem_cons, List.not_mem_nil, or_false] at hk
  rcases hk with rfl | rfl | rfl
  · have hname : vApp (.ok RepoBrief.mk) (reqField kvs "name" str_validator)
        = .error [("name", "field required")] := by
      simp [reqField, hmiss, vApp]
    obtain ⟨e1, he1, hm1⟩ :=
      mem_vApp_left (reqField kvs "owner" str_validator) hname (List.mem_singleton.mpr rfl)
    obtain ⟨e2, he2, hm2⟩ := mem_vApp_left (optField kvs "description" str_validator) he1 hm1
    obtain ⟨e3, he3, hm3⟩ := mem_vApp_left (optField kvs "language" str_validator) he2 hm2
    obtain ⟨e4, he4, hm4⟩ :=
      mem_vApp_left (reqField kvs "topics" (list_validator str_validator)) he3 hm3
    exact ⟨e4, by simpa [validateRepoBrief] using he4, hm4⟩
  · have howner : reqField kvs "owner" str_validator = .error [("owner", "field required")] := by
      simp [reqField, hmiss]
    obtain ⟨e1, he1, hm1⟩ :=
      mem_vApp_right (vApp (.ok RepoBrief.mk) (reqField kvs "name" str_validator))
        howner (List.mem_singleton.mpr rfl)
    obtain ⟨e2, he2, hm2⟩ := mem_vApp_left (optField kvs "description" str_validator) he1 hm1
    obtain ⟨e3, he3, hm3⟩ := mem_vApp_left (optField kvs "language" str_validator) he2 hm2
    obtain ⟨e4, he4, hm4⟩ :=
      mem_vApp_left (reqField kvs "topics" (list_validator str_validator)) he3 hm3
    exact ⟨e4, by simpa [validateRepoBrief] using he4, hm4⟩
  · have htop : reqField kvs "topics" (list_validator str_validator)
        = .error [("topics", "field required")] := by
      simp [reqField, hmiss]
    obtain ⟨e1, he1, hm1⟩ :=
      mem_vApp_right (vApp (vApp (vApp (vApp (.ok RepoBrief.mk)
        (reqField kvs "name" str_validator))
        (reqField kvs "owner" str_validator))
        (optField kvs "description" str_validator))
        (optField kvs "language" str_validator)) htop (List.mem_singleton.mpr rfl)
    exact ⟨e1, by simpa [validateRepoBrief] using he1, hm1⟩

/-- Witness for C2: the spec's example input without "owner" fails naming
"owner" as missing. -/
theorem s2p_C2_witness :
    ∃ errs, validateRepoBrief (.obj [("name", .str "Hello-World"), ("topics", .arr [])])
      = .error errs ∧ ("owner", "field required") ∈ errs :=
  s2p_C2 [("name", .str "Hello-World"), ("topics", .arr [])] "owner" (by decide) rfl

/-- Counterexample to C5 as stated: a string "5" in the declared-integer
field `MonthlyCount.count` does NOT make validation fail — it is parsed
as the number 5. -/
theorem s2p_C5_counterexample :
    validateMonthlyCount (.obj [("month", .dt ⟨0⟩), ("count", .str "5")]) = .ok ⟨⟨0⟩, 5⟩
    ∧ ∀ errs, validateMonthlyCount (.obj [("month", .dt ⟨0⟩), ("count", .str "5")])
        ≠ .error errs := by
  refine ⟨rfl, ?_⟩
  intro errs h
  rw [show validateMonthlyCount (.obj [("month", .dt ⟨0⟩), ("count", .str "5")])
      = .ok ⟨⟨0⟩, 5⟩ from rfl] at h
  exact Except.noConfusion h

/-- Claim C5 as amended: a string in a declared-integer field
(`MonthlyCount.count`, `UpdateConfig.interval`) is parsed with Python
`int()` semantics — a string that parses is silently coerced to that
integer, and only a string that does not parse fails, with an error naming
the field. -/
theorem s2p_C5 : ∀ (s : String) (t : PyDatetime) (tid : String) (bt : PyDatetime),
    (pyParseInt s = none →
      (∃ errs, validateMonthlyCount (.obj [("month", .dt t), ("count", .str s)])
          = .error errs ∧ ("count", "value is not a valid integer") ∈ errs)
      ∧ (∃ errs, validateUpdateConfig (.obj [("task_id", .str tid), ("interval", .str s),
          ("begin_time", .dt bt)]) = .error errs
          ∧ ("interval", "value is not a valid integer") ∈ errs))
    ∧ (∀ n : Int, pyParseInt s = some n →
      validateMonthlyCount (.obj [("month", .dt t), ("count", .str s)]) = .ok ⟨t, n⟩
      ∧ validateUpdateConfig (.obj [("task_id", .str tid), ("interval", .str s),
          ("begin_time", .dt bt)]) = .ok ⟨tid, n, bt⟩) := by
  intro s t tid bt
  constructor
  · intro hs
    constructor
    · refine ⟨[("count", "value is not a valid integer")], ?_, by simp⟩
      simp [validateMonthlyCount, reqField, lookup, datetime_validator, int_validator, hs, vApp]
    · refine ⟨[("interval", "value is not a valid integer")], ?_, by simp⟩
      simp [validateUpdateConfig, reqField, lookup, datetime_validator, int_validator,
        str_validator, hs, vApp]
  · intro n hn
    constructor
    · simp [validateMonthlyCount, reqField, lookup, datetime_validator, int_validator, hn, vApp]
    · simp [validateUpdateConfig, reqField, lookup, datetime_validator, int_validator,
        str_validator, hn, vApp]

/-- Witness for C5 (amended) at concrete inputs: "abc" fails naming
"count"; "5" coerces to the integer 5 in `UpdateConfig.interval`. -/
theorem s2p_C5_witness :
    (∃ errs, validateMonthlyCount (.obj [("month", .dt ⟨0⟩), ("count", .str "abc")])
        = .error errs ∧ ("count", "value is not a valid integer") ∈ errs)
    ∧ validateUpdateConfig (.obj [("task_id", .str "t1"), ("interval", .str "5"),
        ("begin_time", .dt ⟨0⟩)]) = .ok ⟨"t1", 5, ⟨0⟩⟩ :=
  ⟨((s2p_C5 "abc" ⟨0⟩ "t1" ⟨0⟩).1 rfl).1, ((s2p_C5 "5" ⟨0⟩ "t1" ⟨0⟩).2 5 rfl).2⟩

/-- Counterexample to C1 as stated: a valid `RepoBrief` input that omits
the optional "description" and "language" keys validates, but encoding the
result is NOT equal to the input restricted to the declared fields — the
encoder emits the optional fields as explicit nulls. -/
theorem s2p_C1_counterexample :
    validateRepoBrief (.obj [("name", .str "Hello-World"), ("owner", .str "octocat"),
      ("topics", .arr [.str "tutorial"])])
      = .ok ⟨"Hello-World", "octocat", none, none, ["tutorial"]⟩
    ∧ encodeRepoBrief ⟨"Hello-World", "octocat", none, none, ["tutorial"]⟩
      ≠ restrictKeys repoBriefFields (.obj [("name", .str "Hello-World"),
        ("owner", .str "octocat"), ("topics", .arr [.str "tutorial"])]) := by
  refine ⟨rfl, ?_⟩
  intro h
  rw [show encodeRepoBrief ⟨"Hello-World", "octocat", none, none, ["tutorial"]⟩
      = .obj [("name", .str "Hello-World"), ("owner", .str "octocat"),
        ("description", .null), ("language", .null),
        ("topics", .arr [.str "tutorial"])] from rfl,
    show restrictKeys repoBriefFields (.obj [("name", .str "Hello-World"),
        ("owner", .str "octocat"), ("topics", .arr [.str "tutorial"])])
      = .obj [("name", .str "Hello-World"), ("owner", .str "octocat"),
        ("topics", .arr [.str "tutorial"])] from rfl] at h
  simp at h

/-- Claim C1 as amended: for a raw input that supplies every declared
field of the schema with values already in canonical wire form, encoding
the validated value yields exactly the input restricted to the declared
fields — unknown/extra keys are silently dropped.  Proved for the three
schemas the claim names: `RepoBrief`, `MonthlyCount` and
`GitHubAppWebhookResponse`. -/
theorem s2p_C1 :
    (∀ (kvs : List (String × JValue)) (nm ow : String)
        (d l : Option String) (ts : List String),
      lookup kvs "name" = some (.str nm) →
      lookup kvs "owner" = some (.str ow) →
      lookup kvs "description" = some (encOptStr d) →
      lookup kvs "language" = some (encOptStr l) →
      lookup kvs "topics" = some (.arr (ts.map JValue.str)) →
      validateRepoBrief (.obj kvs) = .ok ⟨nm, ow, d, l, ts⟩
      ∧ encodeRepoBrief ⟨nm, ow, d, l, ts⟩ = restrictKeys repoBriefFields (.obj kvs))
    ∧ (∀ (kvs : List (String × JValue)) (t : PyDatetime) (c : Int),
      lookup kvs "month" = some (.dt t) →
      lookup kvs "count" = some (.int c) →
      validateMonthlyCount (.obj kvs) = .ok ⟨t, c⟩
      ∧ encodeMonthlyCount ⟨t, c⟩ = restrictKeys monthlyCountFields (.obj kvs))
    ∧ (∀ (kvs snd : List (String × JValue)) (a : String)
        (oi : Option (List (String × JValue))) (orp : Option GitHubRepo)
        (ors oradd orrem : Option (List GitHubRepo)),
      lookup kvs "sender" = some (.obj snd) →
      lookup kvs "action" = some (.str a) →
      lookup kvs "issue" = some (encOptJ (fun m => .obj m) oi) →
      lookup kvs "repository" = some (encOptJ encodeGitHubRepo orp) →
      lookup kvs "repositories"
        = some (encOptJ (fun rs => .arr (rs.map encodeGitHubRepo)) ors) →
      lookup kvs "repositories_added"
        = some (encOptJ (fun rs => .arr (rs.map encodeGitHubRepo)) oradd) →
      lookup kvs "repositories_removed"
        = some (encOptJ (fun rs => .arr (rs.map encodeGitHubRepo)) orrem) →
      validateGitHubAppWebhookResponse (.obj kvs)
        = .ok ⟨snd, a, oi, orp, ors, oradd, orrem⟩
      ∧ encodeGitHubAppWebhookResponse ⟨snd, a, oi, orp, ors, oradd, orrem⟩
        = restrictKeys webhookFields (.obj kvs)) := by
  refine ⟨?_, ?_, ?_⟩
  · intro kvs nm ow d l ts h1 h2 h3 h4 h5
    constructor
    · cases d <;> cases l <;>
        simp_all [validateRepoBrief, reqField, optField, encOptStr, str_validator,
          list_validator, validateElems_str, vApp]
    · simp [encodeRepoBrief, restrictKeys, repoBriefFields, h1, h2, h3, h4, h5]
  · intro kvs t c h1 h2
    constructor
    · simp [validateMonthlyCount, reqField, h1, h2, datetime_validator, int_validator, vApp]
    · simp [encodeMonthlyCount, restrictKeys, monthlyCountFields, h1, h2]
  · intro kvs snd a oi orp ors oradd orrem h1 h2 h3 h4 h5 h6 h7
    have hi := optField_encOptJ kvs "issue" (fun m => .obj m) dict_validator oi h3
      (fun m => rfl) (fun m => by simp)
    have hr := optField_encOptJ kvs "repository" encodeGitHubRepo
      validateGitHubAppWebhookResponse.validateGitHubRepoField orp h4
      validateGitHubRepoField_encode (fun r => by simp [encodeGitHubRepo])
    have hrs := optField_encOptJ kvs "repositories"
      (fun rs => .arr (rs.map encodeGitHubRepo))
      (list_validator validateGitHubAppWebhookResponse.validateGitHubRepoField) ors h5
      (fun rs => by simp [list_validator, validateElems_ghrepo]) (fun rs => by simp)
    have hra := optField_encOptJ kvs "repositories_added"
      (fun rs => .arr (rs.map encodeGitHubRepo))
      (list_validator validateGitHubAppWebhookResponse.validateGitHubRepoField) oradd h6
      (fun rs => by simp [list_validator, validateElems_ghrepo]) (fun rs => by simp)
    have hrr := optField_encOptJ kvs "repositories_removed"
      (fun rs => .arr (rs.map encodeGitHubRepo))
      (list_validator validateGitHubAppWebhookResponse.validateGitHubRepoField) orrem h7
      (fun rs => by simp [list_validator, validateElems_ghrepo]) (fun rs => by simp)
    constructor
    · simp [validateGitHubAppWebhookResponse, reqField, h1, h2, dict_validator,
        str_validator, hi, hr, hrs, hra, hrr, vApp]
    · simp [encodeGitHubAppWebhookResponse, restrictKeys, webhookFields,
        h1, h2, h3, h4, h5, h6, h7]

/-- Witness for C1 (amended) at concrete inputs for all three schemas,
each holding every declared field plus an extra key, which is dropped:
"stargazers_count" for `RepoBrief`, "extra" for `MonthlyCount` and "zen"
for `GitHubAppWebhookResponse`. -/
theorem s2p_C1_witness :
    (validateRepoBrief (.obj [("name", .str "Hello-World"), ("owner", .str "octocat"),
      ("description", .null), ("language", .str "Python"),
      ("topics", .arr [.str "tutorial"]), ("stargazers_count", .int 1)])
      = .ok ⟨"Hello-World", "octocat", none, some "Python", ["tutorial"]⟩
    ∧ encodeRepoBrief ⟨"Hello-World", "octocat", none, some "Python", ["tutorial"]⟩
      = restrictKeys repoBriefFields (.obj [("name", .str "Hello-World"),
        ("owner", .str "octocat"), ("description", .null), ("language", .str "Python"),
        ("topics", .arr [.str "tutorial"]), ("stargazers_count", .int 1)]))
    ∧ (validateMonthlyCount (.obj [("month", .dt ⟨0⟩), ("count", .int 5),
        ("extra", .bool true)]) = .ok ⟨⟨0⟩, 5⟩
    ∧ encodeMonthlyCount ⟨⟨0⟩, 5⟩ = restrictKeys monthlyCountFields
        (.obj [("month", .dt ⟨0⟩), ("count", .int 5), ("extra", .bool true)]))
    ∧ (validateGitHubAppWebhookResponse (.obj [("sender", .obj []),
        ("action", .str "created"), ("issue", .null),
        ("repository", .obj [("full_name", .str "octocat/Hello-World"),
          ("name", .str "Hello-World")]),
        ("repositories", .null), ("repositories_added", .arr []),
        ("repositories_removed", .null), ("zen", .str "Keep it simple")])
      = .ok ⟨[], "created", none, some ⟨"octocat/Hello-World", "Hello-World"⟩,
          none, some [], none⟩
    ∧ encodeGitHubAppWebhookResponse ⟨[], "created", none,
        some ⟨"octocat/Hello-World", "Hello-World"⟩, none, some [], none⟩
      = restrictKeys webhookFields (.obj [("sender", .obj []),
        ("action", .str "created"), ("issue", .null),
        ("repository", .obj [("full_name", .str "octocat/Hello-World"),
          ("name", .str "Hello-World")]),
        ("repositories", .null), ("repositories_added", .arr []),
        ("repositories_removed", .null), ("zen", .str "Keep it simple")])) :=
  ⟨s2p_C1.1 [("name", .str "Hello-World"), ("owner", .str "octocat"),
      ("description", .null), ("language", .str "Python"),
      ("topics", .arr [.str "tutorial"]), ("stargazers_count", .int 1)]
      "Hello-World" "octocat" none (some "Python") ["tutorial"] rfl rfl rfl rfl rfl,
   s2p_C1.2.1 [("month", .dt ⟨0⟩), ("count", .int 5), ("extra", .bool true)]
      ⟨0⟩ 5 rfl rfl,
   s2p_C1.2.2 [("sender", .obj []), ("action", .str "created"), ("issue", .null),
      ("repository", .obj [("full_name", .str "octocat/Hello-World"),
        ("name", .str "Hello-World")]),
      ("repositories", .null), ("repositories_added", .arr []),
      ("repositories_removed", .null), ("zen", .str "Keep it simple")]
      [] "created" none (some ⟨"octocat/Hello-World", "Hello-World"⟩)
      none (some []) none rfl rfl rfl rfl rfl rfl rfl⟩
